import Mathlib

/-!
Shallow embedding of the browser-pdf-reader server actions
(`src/unnamed/part_000`, schema in `src/db/tables.ts`).

The relational store is modelled as three lists of rows. Each action is a
function from its validated input, the request context (an optional
authenticated user), the current time (`now : Nat`, standing for
`new Date()`), a fresh generated id (`newId`, standing for
`crypto.randomUUID()`), and the current store, to a pair of an
`Except Failure result` and the resulting store. Zod input validation
runs before the handler body, exactly as the Astro actions framework does;
a validation failure is `Failure.invalidInput`, a `throw new ActionError`
inside a handler is `Failure.thrown e` with the error's code and message.

Drizzle semantics used: `select().where(cond)` is `List.filter`, taking
`[row]` of a select is `List.find?` on the same predicate;
`update().set().where().returning()` maps the patch over matching rows and
returns the (first) updated row; `insert().values().returning()` appends
the new row; `delete().where()` removes matching rows, with
`rowsAffected` the difference in lengths.
-/

structure User where
  id : String
deriving Repr, DecidableEq

structure Document where
  id : String
  userId : String
  title : Option String := none
  sourceType : Option String := none
  sourceUrl : Option String := none
  pageCount : Option Int := none
  lastOpenedAt : Option Nat := none
  createdAt : Nat
  updatedAt : Nat
deriving Repr, DecidableEq

structure Page where
  id : String
  documentId : String
  pageNumber : Int
  textContent : Option String := none
  createdAt : Nat
deriving Repr, DecidableEq

structure Annotation where
  id : String
  documentId : String
  pageId : Option String := none
  userId : String
  annotationType : Option String := none
  selectionJson : Option String := none
  comment : Option String := none
  color : Option String := none
  createdAt : Nat
  updatedAt : Nat
deriving Repr, DecidableEq

structure Store where
  documents : List Document := []
  pages : List Page := []
  annotations : List Annotation := []
deriving Repr, DecidableEq

/-- `ActionError` as thrown by the handlers: a stable code plus a message. -/
structure ActionError where
  code : String
  message : String
deriving Repr, DecidableEq

/-- A failure surfaced to the caller: either a zod input-validation failure
(raised by the framework before the handler runs) or a thrown `ActionError`. -/
inductive Failure where
  | invalidInput
  | thrown (e : ActionError)
deriving Repr, DecidableEq

def unauthorizedError : ActionError :=
  ⟨"UNAUTHORIZED", "You must be signed in to perform this action."⟩

def documentNotFound : ActionError := ⟨"NOT_FOUND", "PDF document not found."⟩

def pageNotFound : ActionError := ⟨"NOT_FOUND", "PDF page not found."⟩

def annotationNotFound : ActionError := ⟨"NOT_FOUND", "Annotation not found."⟩

/-- `requireUser(context)`: fails `UNAUTHORIZED` when no user is in scope. -/
def requireUser (ctx : Option User) : Except Failure User :=
  match ctx with
  | some u => .ok u
  | none => .error (.thrown unauthorizedError)

/-- `getOwnedDocument(documentId, userId)`: selects the document whose id AND
userId both match (conjunctive filter), failing `NOT_FOUND` otherwise. -/
def getOwnedDocument (s : Store) (documentId userId : String) :
    Except Failure Document :=
  match s.documents.find? (fun d => d.id == documentId && d.userId == userId) with
  | some doc => .ok doc
  | none => .error (.thrown documentNotFound)

/-- `getOwnedPage(pageId, documentId, userId)`: first re-validates document
ownership, then selects the page whose id AND documentId both match. -/
def getOwnedPage (s : Store) (pageId documentId userId : String) :
    Except Failure Page :=
  match getOwnedDocument s documentId userId with
  | .error e => .error e
  | .ok _ =>
    match s.pages.find? (fun p => p.id == pageId && p.documentId == documentId) with
    | some page => .ok page
    | none => .error (.thrown pageNotFound)

structure CreateDocumentInput where
  title : Option String := none
  sourceType : Option String := none
  sourceUrl : Option String := none
  pageCount : Option Int := none
  lastOpenedAt : Option Nat := none
deriving Repr, DecidableEq

/-- `createDocument` handler: no ownership guard, inserts with
`userId = caller`, `createdAt = updatedAt = now`, returns the inserted row. -/
def createDocument (ctx : Option User) (inp : CreateDocumentInput)
    (now : Nat) (newId : String) (s : Store) :
    Except Failure Document × Store :=
  match requireUser ctx with
  | .error e => (.error e, s)
  | .ok user =>
    let doc : Document :=
      { id := newId, userId := user.id, title := inp.title,
        sourceType := inp.sourceType, sourceUrl := inp.sourceUrl,
        pageCount := inp.pageCount, lastOpenedAt := inp.lastOpenedAt,
        createdAt := now, updatedAt := now }
    (.ok doc, { s with documents := s.documents ++ [doc] })

structure UpdateDocumentInput where
  id : String
  title : Option String := none
  sourceType : Option String := none
  sourceUrl : Option String := none
  pageCount : Option Int := none
  lastOpenedAt : Option Nat := none
deriving Repr, DecidableEq

/-- zod schema of `updateDocument`: `id` nonempty, and the `.refine` demanding
at least one optional field. -/
def updateDocumentValid (inp : UpdateDocumentInput) : Bool :=
  decide (1 ≤ inp.id.length) &&
    (inp.title.isSome || inp.sourceType.isSome || inp.sourceUrl.isSome ||
      inp.pageCount.isSome || inp.lastOpenedAt.isSome)

/-- The sparse `.set({...})` object of `updateDocument`: supplied fields
overwrite, absent fields are left untouched; `updatedAt = now`. -/
def patchDocument (inp : UpdateDocumentInput) (now : Nat) (d : Document) :
    Document :=
  { d with
    title := match inp.title with | some v => some v | none => d.title
    sourceType := match inp.sourceType with | some v => some v | none => d.sourceType
    sourceUrl := match inp.sourceUrl with | some v => some v | none => d.sourceUrl
    pageCount := match inp.pageCount with | some v => some v | none => d.pageCount
    lastOpenedAt := match inp.lastOpenedAt with | some v => some v | none => d.lastOpenedAt
    updatedAt := now }

/-- `updateDocument` handler: validation, auth, ownership guard, then an
update whose `where` filters by id only, returning the first updated row. -/
def updateDocument (ctx : Option User) (inp : UpdateDocumentInput)
    (now : Nat) (s : Store) : Except Failure (Option Document) × Store :=
  if updateDocumentValid inp then
    match requireUser ctx with
    | .error e => (.error e, s)
    | .ok user =>
      match getOwnedDocument s inp.id user.id with
      | .error e => (.error e, s)
      | .ok _ =>
        let docs := s.documents.map
          (fun d => if d.id == inp.id then patchDocument inp now d else d)
        (.ok ((docs.filter (fun d => d.id == inp.id)).head?),
          { s with documents := docs })
  else (.error .invalidInput, s)

/-- `listDocuments` handler: all documents whose userId is the caller's,
plus a total equal to the returned list's length. -/
def listDocuments (ctx : Option User) (s : Store) :
    Except Failure (List Document × Nat) × Store :=
  match requireUser ctx with
  | .error e => (.error e, s)
  | .ok user =>
    let docs := s.documents.filter (fun d => d.userId == user.id)
    (.ok (docs, docs.length), s)

structure CreatePageInput where
  documentId : String
  pageNumber : Int
  textContent : Option String := none
deriving Repr, DecidableEq

/-- zod schema of `createPage`: `documentId` nonempty,
`pageNumber` an integer with `.min(1)`. -/
def createPageValid (inp : CreatePageInput) : Bool :=
  decide (1 ≤ inp.documentId.length) && decide (1 ≤ inp.pageNumber)

/-- `createPage` handler: ownership guard on documentId, then insert with
`createdAt = now`, returning the inserted row. -/
def createPage (ctx : Option User) (inp : CreatePageInput)
    (now : Nat) (newId : String) (s : Store) : Except Failure Page × Store :=
  if createPageValid inp then
    match requireUser ctx with
    | .error e => (.error e, s)
    | .ok user =>
      match getOwnedDocument s inp.documentId user.id with
      | .error e => (.error e, s)
      | .ok _ =>
        let page : Page :=
          { id := newId, documentId := inp.documentId,
            pageNumber := inp.pageNumber, textContent := inp.textContent,
            createdAt := now }
        (.ok page, { s with pages := s.pages ++ [page] })
  else (.error .invalidInput, s)

/-- `listPages` handler: ownership guard, then all pages whose documentId
matches, plus a total equal to the returned list's length. -/
def listPages (ctx : Option User) (documentId : String) (s : Store) :
    Except Failure (List Page × Nat) × Store :=
  if decide (1 ≤ documentId.length) then
    match requireUser ctx with
    | .error e => (.error e, s)
    | .ok user =>
      match getOwnedDocument s documentId user.id with
      | .error e => (.error e, s)
      | .ok _ =>
        let pages := s.pages.filter (fun p => p.documentId == documentId)
        (.ok (pages, pages.length), s)
  else (.error .invalidInput, s)

structure CreateAnnotationInput where
  documentId : String
  pageId : Option String := none
  annotationType : Option String := none
  selectionJson : Option String := none
  comment : Option String := none
  color : Option String := none
deriving Repr, DecidableEq

/-- zod schema of `createAnnotation`: only `documentId` is required
(nonempty); `pageId` has no `.min(1)` so the empty string passes. -/
def createAnnotationValid (inp : CreateAnnotationInput) : Bool :=
  decide (1 ≤ inp.documentId.length)

/-- JavaScript truthiness of `input.pageId` in `if (input.pageId)`:
`undefined` and the empty string are both falsy. -/
def pageIdTruthy (o : Option String) : Bool :=
  match o with
  | some p => p != ""
  | none => false

/-- `createAnnotation` handler: ownership guard on documentId; the page
check runs only under `if (input.pageId)` (truthiness, so a supplied empty
string skips it); inserts with `pageId = input.pageId ?? null`,
`userId = caller`, `createdAt = updatedAt = now`. -/
def createAnnotation (ctx : Option User) (inp : CreateAnnotationInput)
    (now : Nat) (newId : String) (s : Store) :
    Except Failure Annotation × Store :=
  if createAnnotationValid inp then
    match requireUser ctx with
    | .error e => (.error e, s)
    | .ok user =>
      match getOwnedDocument s inp.documentId user.id with
      | .error e => (.error e, s)
      | .ok _ =>
        match (if pageIdTruthy inp.pageId then
                 ( getOwnedPage s (inp.pageId.getD "") inp.documentId user.id).map
                   (fun _ => ())
               else .ok ()) with
        | .error e => (.error e, s)
        | .ok _ =>
          let a : Annotation :=
            { id := newId, documentId := inp.documentId, pageId := inp.pageId,
              userId := user.id, annotationType := inp.annotationType,
              selectionJson := inp.selectionJson, comment := inp.comment,
              color := inp.color, createdAt := now, updatedAt := now }
          (.ok a, { s with annotations := s.annotations ++ [a] })
  else (.error .invalidInput, s)

structure UpdateAnnotationInput where
  id : String
  documentId : String
  pageId : Option String := none
  annotationType : Option String := none
  selectionJson : Option String := none
  comment : Option String := none
  color : Option String := none
deriving Repr, DecidableEq

/-- zod schema of `updateAnnotation`: `id` and `documentId` nonempty, and
the `.refine` demanding at least one optional field. -/
def updateAnnotationValid (inp : UpdateAnnotationInput) : Bool :=
  decide (1 ≤ inp.id.length) && decide (1 ≤ inp.documentId.length) &&
    (inp.pageId.isSome || inp.annotationType.isSome ||
      inp.selectionJson.isSome || inp.comment.isSome || inp.color.isSome)

/-- The sparse `.set({...})` object of `updateAnnotation`: supplied fields
overwrite, absent fields are left untouched; `updatedAt = now`. -/
def patchAnnotation (inp : UpdateAnnotationInput) (now : Nat)
    (a : Annotation) : Annotation :=
  { a with
    pageId := match inp.pageId with | some v => some v | none => a.pageId
    annotationType := match inp.annotationType with | some v => some v | none => a.annotationType
    selectionJson := match inp.selectionJson with | some v => some v | none => a.selectionJson
    comment := match inp.comment with | some v => some v | none => a.comment
    color := match inp.color with | some v => some v | none => a.color
    updatedAt := now }

/-- `updateAnnotation` handler: validation, auth, document ownership; if
`pageId` is supplied (`!== undefined`, not truthiness) re-validates it via
`getOwnedPage`; pre-fetches the existing row by id AND documentId, failing
`NOT_FOUND` if absent; then updates rows matching id only, returning the
first updated row. -/
def updateAnnotation (ctx : Option User) (inp : UpdateAnnotationInput)
    (now : Nat) (s : Store) : Except Failure (Option Annotation) × Store :=
  if updateAnnotationValid inp then
    match requireUser ctx with
    | .error e => (.error e, s)
    | .ok user =>
      match getOwnedDocument s inp.documentId user.id with
      | .error e => (.error e, s)
      | .ok _ =>
        match (match inp.pageId with
               | some p => ( getOwnedPage s p inp.documentId user.id).map (fun _ => ())
               | none => .ok ()) with
        | .error e => (.error e, s)
        | .ok _ =>
          match s.annotations.find?
              (fun a => a.id == inp.id && a.documentId == inp.documentId) with
          | none => (.error (.thrown annotationNotFound), s)
          | some _ =>
            let anns := s.annotations.map
              (fun a => if a.id == inp.id then patchAnnotation inp now a else a)
            (.ok ((anns.filter (fun a => a.id == inp.id)).head?),
              { s with annotations := anns })
  else (.error .invalidInput, s)

structure DeleteAnnotationInput where
  id : String
  documentId : String
deriving Repr, DecidableEq

/-- zod schema of `deleteAnnotation`: `id` and `documentId` nonempty. -/
def deleteAnnotationValid (inp : DeleteAnnotationInput) : Bool :=
  decide (1 ≤ inp.id.length) && decide (1 ≤ inp.documentId.length)

/-- `deleteAnnotation` handler: validation, auth, document ownership, then
a delete filtered by id AND documentId; fails `NOT_FOUND` post hoc when
`rowsAffected === 0` (no pre-fetch). -/
def deleteAnnotation (ctx : Option User) (inp : DeleteAnnotationInput)
    (s : Store) : Except Failure Unit × Store :=
  if deleteAnnotationValid inp then
    match requireUser ctx with
    | .error e => (.error e, s)
    | .ok user =>
      match getOwnedDocument s inp.documentId user.id with
      | .error e => (.error e, s)
      | .ok _ =>
        let remaining := s.annotations.filter
          (fun a => !(a.id == inp.id && a.documentId == inp.documentId))
        let s' := { s with annotations := remaining }
        if remaining.length == s.annotations.length then
          (.error (.thrown annotationNotFound), s')
        else (.ok (), s')
  else (.error .invalidInput, s)

/-- `listAnnotations` handler: ownership guard, then all annotations whose
documentId matches (no filter on the requester's userId), plus a total
equal to the returned list's length. -/
def listAnnotations (ctx : Option User) (documentId : String) (s : Store) :
    Except Failure (List Annotation × Nat) × Store :=
  if decide (1 ≤ documentId.length) then
    match requireUser ctx with
    | .error e => (.error e, s)
    | .ok user =>
      match getOwnedDocument s documentId user.id with
      | .error e => (.error e, s)
      | .ok _ =>
        let anns := s.annotations.filter (fun a => a.documentId == documentId)
        (.ok (anns, anns.length), s)
  else (.error .invalidInput, s)

/-! ### Guard lemmas -/

theorem getOwnedDocument_not_owned (s : Store) (documentId userId : String)
    (h : ∀ d ∈ s.documents, ¬(d.id = documentId ∧ d.userId = userId)) :
    getOwnedDocument s documentId userId = .error (.thrown documentNotFound) := by
  have hf : s.documents.find? (fun d => d.id == documentId && d.userId == userId)
      = none := by
    simp only [List.find?_eq_none, Bool.and_eq_true, beq_iff_eq, not_and]
    intro d hd h1 h2
    exact h d hd ⟨h1, h2⟩
  simp [getOwnedDocument, hf]

theorem getOwnedDocument_ok (s : Store) (documentId userId : String)
    (d : Document) (h : getOwnedDocument s documentId userId = .ok d) :
    d ∈ s.documents ∧ d.id = documentId ∧ d.userId = userId := by
  unfold getOwnedDocument at h
  cases hf : s.documents.find? (fun d => d.id == documentId && d.userId == userId) with
  | none => rw [hf] at h; cases h
  | some d' =>
    rw [hf] at h
    cases h
    refine ⟨List.mem_of_find?_eq_some hf, ?_⟩
    have := List.find?_some hf
    simpa using this

theorem getOwnedPage_ok (s : Store) (pageId documentId userId : String)
    (page : Page) (h : getOwnedPage s pageId documentId userId = .ok page) :
    (∃ d ∈ s.documents, d.id = documentId ∧ d.userId = userId) ∧
      page ∈ s.pages ∧ page.id = pageId ∧ page.documentId = documentId := by
  unfold getOwnedPage at h
  cases hd : getOwnedDocument s documentId userId with
  | error e => rw [hd] at h; cases h
  | ok d =>
    rw [hd] at h
    obtain ⟨hmem, hid, huid⟩ := getOwnedDocument_ok s documentId userId d hd
    cases hf : s.pages.find? (fun p => p.id == pageId && p.documentId == documentId) with
    | none => rw [hf] at h; cases h
    | some p' =>
      rw [hf] at h
      cases h
      refine ⟨⟨d, hmem, hid, huid⟩, List.mem_of_find?_eq_some hf, ?_⟩
      have := List.find?_some hf
      simpa using this

/-! ### Sample data used by the concrete witnesses -/

def docAlice : Document := { id := "d1", userId := "alice", createdAt := 0, updatedAt := 0 }

def docBob : Document := { id := "d2", userId := "bob", createdAt := 0, updatedAt := 0 }

def pageAlice : Page := { id := "p1", documentId := "d1", pageNumber := 1, createdAt := 0 }

def pageBob : Page := { id := "p2", documentId := "d2", pageNumber := 1, createdAt := 0 }

def annAlice : Annotation :=
  { id := "a1", documentId := "d1", userId := "alice", comment := some "old",
    createdAt := 0, updatedAt := 0 }

def baseStore : Store :=
  { documents := [docAlice, docBob], pages := [pageAlice, pageBob],
    annotations := [annAlice] }

/-! ### C3 -/

/-- C3: whenever `getOwnedPage` returns a `Page` rather than failing, the
Documents table contains a document with the given documentId owned by the
given userId, and the returned page's documentId equals the given
documentId (so a page is never returned for a document the caller does not
own, even when the pageId names a valid page of someone else's document). -/
theorem getOwnedPage_requires_owned_document (s : Store)
    (pageId documentId userId : String) (page : Page)
    (h : getOwnedPage s pageId documentId userId = .ok page) :
    (∃ d ∈ s.documents, d.id = documentId ∧ d.userId = userId) ∧
      page.documentId = documentId ∧ page.id = pageId ∧ page ∈ s.pages := by
  obtain ⟨hd, hmem, hid, hdoc⟩ := getOwnedPage_ok s pageId documentId userId page h
  exact ⟨hd, hdoc, hid, hmem⟩

/-- C3 witness: on the sample store, Alice fetches her own page `p1` of her
document `d1`, and the conclusions hold there. -/
theorem getOwnedPage_requires_owned_document_witness :
    (∃ d ∈ baseStore.documents, d.id = "d1" ∧ d.userId = "alice") ∧
      pageAlice.documentId = "d1" ∧ pageAlice.id = "p1" ∧
      pageAlice ∈ baseStore.pages :=
  getOwnedPage_requires_owned_document baseStore "p1" "d1" "alice" pageAlice rfl

/-! ### Dissection lemmas for successful list calls -/

theorem error_pair_ne_ok {α : Type} {e : Failure} {a : α} {s s' : Store}
    (h : ((Except.error e : Except Failure α), s) = (Except.ok a, s')) : False :=
  Except.noConfusion (congrArg Prod.fst h)

theorem listPages_ok (ctx : Option User) (documentId : String) (s : Store)
    (items : List Page) (total : Nat) (s₂ : Store)
    (h : listPages ctx documentId s = (.ok (items, total), s₂)) :
    items = s.pages.filter (fun p => p.documentId == documentId) ∧
      total = items.length ∧ s₂ = s := by
  unfold listPages at h
  split at h
  · split at h
    · exact (error_pair_ne_ok h).elim
    · split at h
      · exact (error_pair_ne_ok h).elim
      · simp only [Prod.mk.injEq, Except.ok.injEq] at h
        obtain ⟨⟨h1, h2⟩, h3⟩ := h
        refine ⟨h1.symm, ?_, h3.symm⟩
        rw [← h1]; exact h2.symm
  · exact (error_pair_ne_ok h).elim

theorem listAnnotations_ok (ctx : Option User) (documentId : String)
    (s : Store) (items : List Annotation) (total : Nat) (s₂ : Store)
    (h : listAnnotations ctx documentId s = (.ok (items, total), s₂)) :
    items = s.annotations.filter (fun a => a.documentId == documentId) ∧
      total = items.length ∧ s₂ = s := by
  unfold listAnnotations at h
  split at h
  · split at h
    · exact (error_pair_ne_ok h).elim
    · split at h
      · exact (error_pair_ne_ok h).elim
      · simp only [Prod.mk.injEq, Except.ok.injEq] at h
        obtain ⟨⟨h1, h2⟩, h3⟩ := h
        refine ⟨h1.symm, ?_, h3.symm⟩
        rw [← h1]; exact h2.symm
  · exact (error_pair_ne_ok h).elim

/-! ### C10 -/

/-- C10: every item returned by `listPages(documentId)` has its documentId
field equal to the requested documentId, and likewise for
`listAnnotations(documentId)`; no row of another document is included. -/
theorem list_results_match_requested_document (ctx : Option User)
    (documentId : String) (s : Store) :
    (∀ items total s₂, listPages ctx documentId s = (.ok (items, total), s₂) →
      ∀ p ∈ items, p.documentId = documentId) ∧
    (∀ items total s₂,
      listAnnotations ctx documentId s = (.ok (items, total), s₂) →
      ∀ a ∈ items, a.documentId = documentId) := by
  constructor
  · intro items total s₂ h p hp
    obtain ⟨h1, -, -⟩ := listPages_ok ctx documentId s items total s₂ h
    rw [h1] at hp
    have := (List.mem_filter.mp hp).2
    simpa using this
  · intro items total s₂ h a ha
    obtain ⟨h1, -, -⟩ := listAnnotations_ok ctx documentId s items total s₂ h
    rw [h1] at ha
    have := (List.mem_filter.mp ha).2
    simpa using this

/-- C10 witness: on the sample store, Alice lists pages and annotations of
her document `d1`; every returned row carries documentId `d1`. -/
theorem list_results_match_requested_document_witness :
    (∀ p ∈ [pageAlice], p.documentId = "d1") ∧
      (∀ a ∈ [annAlice], a.documentId = "d1") :=
  ⟨(list_results_match_requested_document (some ⟨"alice"⟩) "d1" baseStore).1
      [pageAlice] 1 baseStore rfl,
    (list_results_match_requested_document (some ⟨"alice"⟩) "d1" baseStore).2
      [annAlice] 1 baseStore rfl⟩

/-! ### C8 -/

/-- C8: a successful `listAnnotations(documentId)` returns exactly the
annotations whose documentId equals the given one, with the count equal to
the returned set's size, and with no filtering by the requester's userId:
every annotation of the document is included whoever authored it. -/
theorem listAnnotations_all_of_document_unfiltered (ctx : Option User)
    (documentId : String) (s : Store) (items : List Annotation) (total : Nat)
    (s₂ : Store) (h : listAnnotations ctx documentId s = (.ok (items, total), s₂)) :
    items = s.annotations.filter (fun a => a.documentId == documentId) ∧
      total = items.length ∧
      (∀ a ∈ s.annotations, a.documentId = documentId → a ∈ items) := by
  obtain ⟨h1, h2, -⟩ := listAnnotations_ok ctx documentId s items total s₂ h
  refine ⟨h1, h2, ?_⟩
  intro a ha hdoc
  rw [h1]
  exact List.mem_filter.mpr ⟨ha, by simp [hdoc]⟩

/-- C8 witness: Alice lists the annotations of `d1` on the sample store; the
returned set is exactly the annotations of `d1`, its size equals the count,
and the annotation in the store with documentId `d1` is included. -/
theorem listAnnotations_all_of_document_unfiltered_witness :
    [annAlice] = baseStore.annotations.filter (fun a => a.documentId == "d1") ∧
      1 = [annAlice].length ∧
      (∀ a ∈ baseStore.annotations, a.documentId = "d1" → a ∈ [annAlice]) :=
  listAnnotations_all_of_document_unfiltered (some ⟨"alice"⟩) "d1" baseStore
    [annAlice] 1 baseStore rfl

/-! ### C4 -/

/-- C4: an `updateDocument` or `updateAnnotation` call supplying none of the
optional patch fields fails with the input-validation failure for every
request context (even an unauthenticated one, so no authentication or
ownership check is reached) and leaves the store unchanged. -/
theorem zero_field_update_invalidInput_before_auth (ctx : Option User)
    (s : Store) (now : Nat) (inpd : UpdateDocumentInput)
    (inpa : UpdateAnnotationInput)
    (hd1 : inpd.title = none) (hd2 : inpd.sourceType = none)
    (hd3 : inpd.sourceUrl = none) (hd4 : inpd.pageCount = none)
    (hd5 : inpd.lastOpenedAt = none)
    (ha1 : inpa.pageId = none) (ha2 : inpa.annotationType = none)
    (ha3 : inpa.selectionJson = none) (ha4 : inpa.comment = none)
    (ha5 : inpa.color = none) :
    updateDocument ctx inpd now s = (.error .invalidInput, s) ∧
      updateAnnotation ctx inpa now s = (.error .invalidInput, s) := by
  have hv1 : updateDocumentValid inpd = false := by
    simp [updateDocumentValid, hd1, hd2, hd3, hd4, hd5]
  have hv2 : updateAnnotationValid inpa = false := by
    simp [updateAnnotationValid, ha1, ha2, ha3, ha4, ha5]
  constructor
  · simp [updateDocument, hv1]
  · simp [ updateAnnotation, hv2]

/-- C4 witness: with no user signed in, zero-field updates on the sample
store fail as invalid input and leave the store unchanged. -/
theorem zero_field_update_invalidInput_before_auth_witness :
    updateDocument none { id := "d1" } 5 baseStore
        = (.error .invalidInput, baseStore) ∧
      updateAnnotation none { id := "a1", documentId := "d1" } 5 baseStore
        = (.error .invalidInput, baseStore) :=
  zero_field_update_invalidInput_before_auth none baseStore 5
    { id := "d1" } { id := "a1", documentId := "d1" }
    rfl rfl rfl rfl rfl rfl rfl rfl rfl rfl

/-! ### C1 -/

/-- C1: under the hypothesis that no document row matches the given id AND
the caller's userId — which covers both the case where the id exists but
belongs to a different user and the case where the id exists in no row at
all — every ownership-guarded action (updateDocument, createPage,
listPages, createAnnotation, updateAnnotation, deleteAnnotation,
listAnnotations) fails with the very same value
`Failure.thrown documentNotFound`, identical in code and message and
independent of which of the two scenarios holds. -/
theorem ownership_guarded_actions_uniform_notFound
    (s : Store) (u : User) (docId : String) (now : Nat) (newId : String)
    (inpud : UpdateDocumentInput) (inpcp : CreatePageInput)
    (inpca : CreateAnnotationInput) (inpua : UpdateAnnotationInput)
    (inpda : DeleteAnnotationInput)
    (hno : ∀ d ∈ s.documents, ¬(d.id = docId ∧ d.userId = u.id))
    (h1v : updateDocumentValid inpud = true) (h1d : inpud.id = docId)
    (h2v : createPageValid inpcp = true) (h2d : inpcp.documentId = docId)
    (h3v : createAnnotationValid inpca = true) (h3d : inpca.documentId = docId)
    (h4v : updateAnnotationValid inpua = true) (h4d : inpua.documentId = docId)
    (h5v : deleteAnnotationValid inpda = true) (h5d : inpda.documentId = docId)
    (hlen : 1 ≤ docId.length) :
    updateDocument (some u) inpud now s
        = (.error (.thrown documentNotFound), s) ∧
      createPage (some u) inpcp now newId s
        = (.error (.thrown documentNotFound), s) ∧
      listPages (some u) docId s = (.error (.thrown documentNotFound), s) ∧
      createAnnotation (some u) inpca now newId s
        = (.error (.thrown documentNotFound), s) ∧
      updateAnnotation (some u) inpua now s
        = (.error (.thrown documentNotFound), s) ∧
      deleteAnnotation (some u) inpda s
        = (.error (.thrown documentNotFound), s) ∧
      listAnnotations (some u) docId s
        = (.error (.thrown documentNotFound), s) := by
  have hdoc : getOwnedDocument s docId u.id = .error (.thrown documentNotFound) :=
    getOwnedDocument_not_owned s docId u.id hno
  refine ⟨?_, ?_, ?_, ?_, ?_, ?_, ?_⟩
  · simp [updateDocument, h1v, requireUser, h1d, hdoc]
  · simp [createPage, h2v, requireUser, h2d, hdoc]
  · simp [listPages, hlen, requireUser, hdoc]
  · simp [ createAnnotation, h3v, requireUser, h3d, hdoc]
  · simp [ updateAnnotation, h4v, requireUser, h4d, hdoc]
  · simp [ deleteAnnotation, h5v, requireUser, h5d, hdoc]
  · simp [listAnnotations, hlen, requireUser, hdoc]

/-- C1 witness: Alice targets document `d2`, which exists in the sample
store but is owned by Bob; all seven guarded actions fail with the same
`documentNotFound` value they produce for an id present in no row. -/
theorem ownership_guarded_actions_uniform_notFound_witness :
    updateDocument (some ⟨"alice"⟩) { id := "d2", title := some "t" } 5 baseStore
        = (.error (.thrown documentNotFound), baseStore) ∧
      createPage (some ⟨"alice"⟩) { documentId := "d2", pageNumber := 1 } 5 "p9"
          baseStore = (.error (.thrown documentNotFound), baseStore) ∧
      listPages (some ⟨"alice"⟩) "d2" baseStore
        = (.error (.thrown documentNotFound), baseStore) ∧
      createAnnotation (some ⟨"alice"⟩) { documentId := "d2" } 5 "a9" baseStore
        = (.error (.thrown documentNotFound), baseStore) ∧
      updateAnnotation (some ⟨"alice"⟩)
          { id := "a1", documentId := "d2", comment := some "c" } 5 baseStore
        = (.error (.thrown documentNotFound), baseStore) ∧
      deleteAnnotation (some ⟨"alice"⟩) { id := "a1", documentId := "d2" }
          baseStore = (.error (.thrown documentNotFound), baseStore) ∧
      listAnnotations (some ⟨"alice"⟩) "d2" baseStore
        = (.error (.thrown documentNotFound), baseStore) :=
  ownership_guarded_actions_uniform_notFound baseStore ⟨"alice"⟩ "d2" 5 "p9"
    { id := "d2", title := some "t" } { documentId := "d2", pageNumber := 1 }
    { documentId := "d2" } { id := "a1", documentId := "d2", comment := some "c" }
    { id := "a1", documentId := "d2" }
    (by decide) rfl rfl rfl rfl rfl rfl rfl rfl rfl rfl (by decide)

/-! ### Dissection of a successful updateAnnotation call -/

/-- The rows of the Annotations table after `updateAnnotation`'s update
statement: rows matching the id are patched, the rest are untouched. -/
def updatedAnnotations (inp : UpdateAnnotationInput) (now : Nat) (s : Store) :
    List Annotation :=
  s.annotations.map (fun a => if a.id == inp.id then patchAnnotation inp now a else a)

theorem updateAnnotation_ok (ctx : Option User) (inp : UpdateAnnotationInput)
    (now : Nat) (s : Store) (ret : Option Annotation) (s₂ : Store)
    (h : updateAnnotation ctx inp now s = (.ok ret, s₂)) :
    s₂ = { s with annotations := updatedAnnotations inp now s } ∧
      ret = ((updatedAnnotations inp now s).filter (fun a => a.id == inp.id)).head? ∧
      ∃ a₀ ∈ s.annotations, a₀.id = inp.id ∧ a₀.documentId = inp.documentId := by
  unfold updateAnnotation at h
  split at h
  · split at h
    · exact (error_pair_ne_ok h).elim
    · split at h
      · exact (error_pair_ne_ok h).elim
      · split at h
        · exact (error_pair_ne_ok h).elim
        · split at h
          · exact (error_pair_ne_ok h).elim
          · rename_i a₀ heq
            simp only [Prod.mk.injEq, Except.ok.injEq] at h
            obtain ⟨h1, h2⟩ := h
            refine ⟨h2.symm, h1.symm, a₀, List.mem_of_find?_eq_some heq, ?_⟩
            have := List.find?_some heq
            simp only [Bool.and_eq_true, beq_iff_eq] at this
            exact this
  · exact (error_pair_ne_ok h).elim

/-! ### C5 -/

/-- C5: a successful `updateAnnotation` that supplies only `comment` maps
every stored annotation matching the id to a copy differing only in
`comment` and `updatedAt`; documents and pages are untouched, and for each
prior matching annotation the store afterwards holds a row with the same
`annotationType`, `selectionJson`, `color` and `pageId` (and identity
fields), the new comment, and `updatedAt = now`. -/
theorem updateAnnotation_comment_only_frame (ctx : Option User)
    (inp : UpdateAnnotationInput) (now : Nat) (c : String) (s : Store)
    (ret : Option Annotation) (s₂ : Store)
    (hc : inp.comment = some c) (hp : inp.pageId = none)
    (ht : inp.annotationType = none) (hsel : inp.selectionJson = none)
    (hcol : inp.color = none)
    (h : updateAnnotation ctx inp now s = (.ok ret, s₂)) :
    s₂.annotations = s.annotations.map
        (fun a => if a.id == inp.id then { a with comment := some c, updatedAt := now } else a) ∧
      s₂.documents = s.documents ∧ s₂.pages = s.pages ∧
      ∀ a ∈ s.annotations, a.id = inp.id →
        ∃ a' ∈ s₂.annotations, a'.comment = some c ∧ a'.updatedAt = now ∧
          a'.annotationType = a.annotationType ∧
          a'.selectionJson = a.selectionJson ∧ a'.color = a.color ∧
          a'.pageId = a.pageId ∧ a'.id = a.id ∧ a'.documentId = a.documentId ∧
          a'.userId = a.userId ∧ a'.createdAt = a.createdAt := by
  obtain ⟨hs₂, -, -⟩ := updateAnnotation_ok ctx inp now s ret s₂ h
  have hpatch : ∀ a : Annotation,
      patchAnnotation inp now a = { a with comment := some c, updatedAt := now } := by
    intro a
    simp only [ patchAnnotation, hc, hp, ht, hsel, hcol]
  have hfun : (fun a : Annotation => if a.id == inp.id then patchAnnotation inp now a else a)
      = (fun a => if a.id == inp.id then { a with comment := some c, updatedAt := now } else a) := by
    funext a
    rw [hpatch a]
  have hmap : s₂.annotations = s.annotations.map
      (fun a => if a.id == inp.id then { a with comment := some c, updatedAt := now } else a) := by
    rw [hs₂]
    dsimp only [updatedAnnotations]
    rw [hfun]
  refine ⟨hmap, by rw [hs₂], by rw [hs₂], ?_⟩
  intro a ha hid
  refine ⟨{ a with comment := some c, updatedAt := now }, ?_,
    rfl, rfl, rfl, rfl, rfl, rfl, rfl, rfl, rfl, rfl⟩
  rw [hmap]
  refine List.mem_map.mpr ⟨a, ha, ?_⟩
  simp [hid]

/-- The single annotation of the sample store after its comment is set to
"new" at time 7. -/
def annAliceNew : Annotation := { annAlice with comment := some "new", updatedAt := 7 }

/-- C5 witness: Alice updates only the comment of annotation `a1`; the
resulting store differs from the sample store exactly in comment and
updatedAt of that annotation. -/
theorem updateAnnotation_comment_only_frame_witness :
    ({ baseStore with annotations := [annAliceNew] } : Store).annotations
        = baseStore.annotations.map
          (fun a => if a.id == "a1" then { a with comment := some "new", updatedAt := 7 } else a) ∧
      ({ baseStore with annotations := [annAliceNew] } : Store).documents
        = baseStore.documents ∧
      ({ baseStore with annotations := [annAliceNew] } : Store).pages
        = baseStore.pages ∧
      ∀ a ∈ baseStore.annotations, a.id = "a1" →
        ∃ a' ∈ ({ baseStore with annotations := [annAliceNew] } : Store).annotations,
          a'.comment = some "new" ∧ a'.updatedAt = 7 ∧
          a'.annotationType = a.annotationType ∧
          a'.selectionJson = a.selectionJson ∧ a'.color = a.color ∧
          a'.pageId = a.pageId ∧ a'.id = a.id ∧ a'.documentId = a.documentId ∧
          a'.userId = a.userId ∧ a'.createdAt = a.createdAt :=
  updateAnnotation_comment_only_frame (some ⟨"alice"⟩)
    { id := "a1", documentId := "d1", comment := some "new" } 7 "new" baseStore
    (some annAliceNew) { baseStore with annotations := [annAliceNew] }
    rfl rfl rfl rfl rfl rfl

/-! ### C9 -/

/-- C9: every successful `updateAnnotation` rewrites the Annotations table
by a per-row function that preserves `id`, `documentId`, `userId` and
`createdAt` of every row — the patch can change only the optional fields
and `updatedAt`, never identity, parent document, author or creation
time — and leaves documents and pages untouched. -/
theorem updateAnnotation_preserves_identity (ctx : Option User)
    (inp : UpdateAnnotationInput) (now : Nat) (s : Store)
    (ret : Option Annotation) (s₂ : Store)
    (h : updateAnnotation ctx inp now s = (.ok ret, s₂)) :
    (∃ f : Annotation → Annotation, s₂.annotations = s.annotations.map f ∧
        ∀ a, (f a).id = a.id ∧ (f a).documentId = a.documentId ∧
          (f a).userId = a.userId ∧ (f a).createdAt = a.createdAt) ∧
      s₂.documents = s.documents ∧ s₂.pages = s.pages := by
  obtain ⟨hs₂, -, -⟩ := updateAnnotation_ok ctx inp now s ret s₂ h
  refine ⟨⟨fun a => if a.id == inp.id then patchAnnotation inp now a else a,
    by rw [hs₂]; rfl, ?_⟩, by rw [hs₂], by rw [hs₂]⟩
  intro a
  by_cases hid : (a.id == inp.id) = true
  · simp only [hid, if_true]
    simp [ patchAnnotation]
  · simp only [hid, if_false]
    exact ⟨rfl, rfl, rfl, rfl⟩

/-- C9 witness: on the concrete comment-only update of the sample store,
the new annotations table arises from a row function preserving id,
documentId, userId and createdAt. -/
theorem updateAnnotation_preserves_identity_witness :
    (∃ f : Annotation → Annotation,
        ({ baseStore with annotations := [annAliceNew] } : Store).annotations
            = baseStore.annotations.map f ∧
          ∀ a, (f a).id = a.id ∧ (f a).documentId = a.documentId ∧
            (f a).userId = a.userId ∧ (f a).createdAt = a.createdAt) ∧
      ({ baseStore with annotations := [annAliceNew] } : Store).documents
          = baseStore.documents ∧
      ({ baseStore with annotations := [annAliceNew] } : Store).pages
          = baseStore.pages :=
  updateAnnotation_preserves_identity (some ⟨"alice"⟩)
    { id := "a1", documentId := "d1", comment := some "new" } 7 baseStore
    (some annAliceNew) { baseStore with annotations := [annAliceNew] } rfl

/-! ### C6 -/

/-- The rows of the Annotations table after `deleteAnnotation`'s delete
statement: rows matching id AND documentId are removed. -/
def remainingAfterDelete (inp : DeleteAnnotationInput) (s : Store) :
    List Annotation :=
  s.annotations.filter (fun a => !(a.id == inp.id && a.documentId == inp.documentId))

theorem filter_length_eq_iff_all {α : Type} (p : α → Bool) (l : List α) :
    (l.filter p).length = l.length ↔ ∀ a ∈ l, p a = true := by
  induction l with
  | nil => simp
  | cons b l ih =>
    by_cases hpb : p b = true
    · rw [List.filter_cons, if_pos (by simpa using hpb)]
      constructor
      · intro h a ha
        have h' : (List.filter p l).length = l.length := by
          simp only [List.length_cons] at h
          omega
        rcases List.mem_cons.mp ha with hb | hmem
        · rw [hb]; exact hpb
        · exact ih.mp h' a hmem
      · intro h
        have h' : (List.filter p l).length = l.length :=
          ih.mpr (fun a ha => h a (List.mem_cons_of_mem b ha))
        simp [h']
    · rw [List.filter_cons, if_neg (by simpa using hpb)]
      constructor
      · intro h
        have := List.length_filter_le p l
        simp only [List.length_cons] at h
        omega
      · intro h
        exact absurd (h b (List.mem_cons_self b l)) hpb

theorem deleteAnnotation_run (u : User) (s : Store)
    (inp : DeleteAnnotationInput) (hv : deleteAnnotationValid inp = true)
    (d : Document) (hd : getOwnedDocument s inp.documentId u.id = .ok d) :
    deleteAnnotation (some u) inp s =
      (if (remainingAfterDelete inp s).length == s.annotations.length
        then (.error (.thrown annotationNotFound),
          { s with annotations := remainingAfterDelete inp s })
        else (.ok (), { s with annotations := remainingAfterDelete inp s })) := by
  unfold deleteAnnotation remainingAfterDelete
  rw [hv, if_pos rfl]
  show (match getOwnedDocument s inp.documentId u.id with
    | .error e => ((.error e : Except Failure Unit), s)
    | .ok _ => _) = _
  rw [hd]

/-- C6: once the ownership check on documentId passes, `deleteAnnotation`
removes exactly the annotations matching id AND documentId, fails with the
annotation `NOT_FOUND` error exactly when that delete affected zero rows
(a post-hoc check on the affected-row count, with no pre-fetch), and a
second call with the same id and documentId on the resulting store always
fails with that same error. -/
theorem deleteAnnotation_postcheck_and_double_delete (u : User) (s : Store)
    (inp : DeleteAnnotationInput) (hv : deleteAnnotationValid inp = true)
    (d : Document) (hd : getOwnedDocument s inp.documentId u.id = .ok d) :
    ( deleteAnnotation (some u) inp s).2
        = { s with annotations := remainingAfterDelete inp s } ∧
      (( deleteAnnotation (some u) inp s).1
          = .error (.thrown annotationNotFound)
        ↔ ∀ a ∈ s.annotations, ¬(a.id = inp.id ∧ a.documentId = inp.documentId)) ∧
      ∀ s₂, deleteAnnotation (some u) inp s = (.ok (), s₂) →
        deleteAnnotation (some u) inp s₂
          = (.error (.thrown annotationNotFound), s₂) := by
  have hall : ((remainingAfterDelete inp s).length == s.annotations.length) = true
      ↔ ∀ a ∈ s.annotations, ¬(a.id = inp.id ∧ a.documentId = inp.documentId) := by
    rw [beq_iff_eq, remainingAfterDelete, filter_length_eq_iff_all]
    constructor
    · intro h a ha
      have h2 := h a ha
      simp at h2
      tauto
    · intro h a ha
      have h2 := h a ha
      simp
      tauto
  have hrun := deleteAnnotation_run u s inp hv d hd
  by_cases hlen : ((remainingAfterDelete inp s).length == s.annotations.length) = true
  · rw [hrun, if_pos hlen]
    refine ⟨rfl, ?_, ?_⟩
    · simpa using hall.mp hlen
    · intro s₂ h
      exact absurd (congrArg Prod.fst h) (by simp)
  · rw [hrun, if_neg hlen]
    have hne : ¬∀ a ∈ s.annotations, ¬(a.id = inp.id ∧ a.documentId = inp.documentId) :=
      fun h => hlen (hall.mpr h)
    refine ⟨rfl, ?_, ?_⟩
    · simpa using hne
    · intro s₂ h
      have hs₂ : s₂ = { s with annotations := remainingAfterDelete inp s } :=
        (congrArg Prod.snd h).symm
      subst hs₂
      have hd₂ : getOwnedDocument { s with annotations := remainingAfterDelete inp s }
          inp.documentId u.id = .ok d := hd
      have hrun₂ := deleteAnnotation_run u
        { s with annotations := remainingAfterDelete inp s } inp hv d hd₂
      have hfix : remainingAfterDelete inp
          { s with annotations := remainingAfterDelete inp s }
          = remainingAfterDelete inp s := by
        unfold remainingAfterDelete
        dsimp only
        refine List.filter_eq_self.mpr ?_
        intro a ha
        exact (List.mem_filter.mp ha).2
      rw [hrun₂]
      rw [if_pos]
      · rw [hfix]
      · rw [hfix]
        exact beq_iff_eq.mpr rfl

/-- C6 witness: Alice deletes annotation `a1` of her document `d1` on the
sample store; the post-hoc characterization holds there, and in particular
the second identical delete fails with the annotation `NOT_FOUND` error. -/
theorem deleteAnnotation_postcheck_and_double_delete_witness :
    ( deleteAnnotation (some ⟨"alice"⟩) { id := "a1", documentId := "d1" } baseStore).2
        = { baseStore with
            annotations := remainingAfterDelete { id := "a1", documentId := "d1" } baseStore } ∧
      (( deleteAnnotation (some ⟨"alice"⟩) { id := "a1", documentId := "d1" } baseStore).1
          = .error (.thrown annotationNotFound)
        ↔ ∀ a ∈ baseStore.annotations, ¬(a.id = "a1" ∧ a.documentId = "d1")) ∧
      ∀ s₂, deleteAnnotation (some ⟨"alice"⟩) { id := "a1", documentId := "d1" } baseStore
          = (.ok (), s₂) →
        deleteAnnotation (some ⟨"alice"⟩) { id := "a1", documentId := "d1" } s₂
          = (.error (.thrown annotationNotFound), s₂) :=
  deleteAnnotation_postcheck_and_double_delete ⟨"alice"⟩ baseStore
    { id := "a1", documentId := "d1" } rfl docAlice rfl

/-! ### C7 -/

theorem requireUser_ok (ctx : Option User) (u : User)
    (h : requireUser ctx = .ok u) : ctx = some u := by
  cases ctx with
  | none => cases h
  | some v => cases h; rfl

theorem createDocument_ok (ctx : Option User) (inp : CreateDocumentInput)
    (now : Nat) (newId : String) (s : Store) (doc : Document) (s₁ : Store)
    (h : createDocument ctx inp now newId s = (.ok doc, s₁)) :
    ∃ u, ctx = some u ∧
      doc = { id := newId, userId := u.id, title := inp.title,
              sourceType := inp.sourceType, sourceUrl := inp.sourceUrl,
              pageCount := inp.pageCount, lastOpenedAt := inp.lastOpenedAt,
              createdAt := now, updatedAt := now } ∧
      s₁ = { s with documents := s.documents ++ [doc] } := by
  unfold createDocument at h
  split at h
  · exact (error_pair_ne_ok h).elim
  · rename_i user hequ
    simp only [Prod.mk.injEq, Except.ok.injEq] at h
    obtain ⟨h1, h2⟩ := h
    exact ⟨user, requireUser_ok ctx user hequ, h1.symm, by rw [← h2, h1]⟩

theorem createPage_ok (ctx : Option User) (inp : CreatePageInput)
    (now : Nat) (newId : String) (s : Store) (pg : Page) (s₁ : Store)
    (h : createPage ctx inp now newId s = (.ok pg, s₁)) :
    createPageValid inp = true ∧
      ∃ u, ctx = some u ∧
        (∃ d, getOwnedDocument s inp.documentId u.id = .ok d) ∧
        pg = { id := newId, documentId := inp.documentId,
               pageNumber := inp.pageNumber, textContent := inp.textContent,
               createdAt := now } ∧
        s₁ = { s with pages := s.pages ++ [pg] } := by
  unfold createPage at h
  split at h
  · rename_i hv
    split at h
    · exact (error_pair_ne_ok h).elim
    · rename_i user hequ
      split at h
      · exact (error_pair_ne_ok h).elim
      · rename_i d heqd
        simp only [Prod.mk.injEq, Except.ok.injEq] at h
        obtain ⟨h1, h2⟩ := h
        exact ⟨hv, user, requireUser_ok ctx user hequ, ⟨d, heqd⟩, h1.symm,
          by rw [← h2, h1]⟩
  · exact (error_pair_ne_ok h).elim

theorem createAnnotation_ok (ctx : Option User) (inp : CreateAnnotationInput)
    (now : Nat) (newId : String) (s : Store) (a1 : Annotation) (s₁ : Store)
    (h : createAnnotation ctx inp now newId s = (.ok a1, s₁)) :
    createAnnotationValid inp = true ∧
      ∃ u, ctx = some u ∧
        (∃ d, getOwnedDocument s inp.documentId u.id = .ok d) ∧
        a1 = { id := newId, documentId := inp.documentId, pageId := inp.pageId,
               userId := u.id, annotationType := inp.annotationType,
               selectionJson := inp.selectionJson, comment := inp.comment,
               color := inp.color, createdAt := now, updatedAt := now } ∧
        s₁ = { s with annotations := s.annotations ++ [a1] } := by
  unfold createAnnotation at h
  split at h
  · rename_i hv
    split at h
    · exact (error_pair_ne_ok h).elim
    · rename_i user hequ
      split at h
      · exact (error_pair_ne_ok h).elim
      · rename_i d heqd
        split at h
        · exact (error_pair_ne_ok h).elim
        · simp only [Prod.mk.injEq, Except.ok.injEq] at h
          obtain ⟨h1, h2⟩ := h
          exact ⟨hv, user, requireUser_ok ctx user hequ, ⟨d, heqd⟩, h1.symm,
            by rw [← h2, h1]⟩
  · exact (error_pair_ne_ok h).elim

theorem listPages_run (u : User) (documentId : String) (s : Store)
    (hlen : 1 ≤ documentId.length) (d : Document)
    (hd : getOwnedDocument s documentId u.id = .ok d) :
    listPages (some u) documentId s =
      (.ok (s.pages.filter (fun p => p.documentId == documentId),
        (s.pages.filter (fun p => p.documentId == documentId)).length), s) := by
  simp [listPages, hlen, requireUser, hd]

theorem listAnnotations_run (u : User) (documentId : String) (s : Store)
    (hlen : 1 ≤ documentId.length) (d : Document)
    (hd : getOwnedDocument s documentId u.id = .ok d) :
    listAnnotations (some u) documentId s =
      (.ok (s.annotations.filter (fun a => a.documentId == documentId),
        (s.annotations.filter (fun a => a.documentId == documentId)).length), s) := by
  simp [listAnnotations, hlen, requireUser, hd]

/-- C7: for each create action that succeeds, the corresponding list action
run by the same caller on the resulting store succeeds and includes the
created row, with every supplied field intact and the server-stamped
timestamps present. -/
theorem create_then_list_roundtrip (ctx : Option User) (s : Store)
    (now : Nat) (newId : String) (inpd : CreateDocumentInput)
    (inpp : CreatePageInput) (inpa : CreateAnnotationInput) :
    (∀ doc s₁, createDocument ctx inpd now newId s = (.ok doc, s₁) →
      ∃ items total s₂, listDocuments ctx s₁ = (.ok (items, total), s₂) ∧
        doc ∈ items ∧ doc.title = inpd.title ∧
        doc.sourceType = inpd.sourceType ∧ doc.sourceUrl = inpd.sourceUrl ∧
        doc.pageCount = inpd.pageCount ∧ doc.lastOpenedAt = inpd.lastOpenedAt ∧
        doc.createdAt = now ∧ doc.updatedAt = now) ∧
    (∀ pg s₁, createPage ctx inpp now newId s = (.ok pg, s₁) →
      ∃ items total s₂, listPages ctx inpp.documentId s₁ = (.ok (items, total), s₂) ∧
        pg ∈ items ∧ pg.documentId = inpp.documentId ∧
        pg.pageNumber = inpp.pageNumber ∧ pg.textContent = inpp.textContent ∧
        pg.createdAt = now) ∧
    (∀ a1 s₁, createAnnotation ctx inpa now newId s = (.ok a1, s₁) →
      ∃ items total s₂,
        listAnnotations ctx inpa.documentId s₁ = (.ok (items, total), s₂) ∧
        a1 ∈ items ∧ a1.documentId = inpa.documentId ∧ a1.pageId = inpa.pageId ∧
        a1.annotationType = inpa.annotationType ∧
        a1.selectionJson = inpa.selectionJson ∧ a1.comment = inpa.comment ∧
        a1.color = inpa.color ∧ a1.createdAt = now ∧ a1.updatedAt = now) := by
  refine ⟨?_, ?_, ?_⟩
  · intro doc s₁ h
    obtain ⟨u, hctx, hdoc, hs₁⟩ := createDocument_ok ctx inpd now newId s doc s₁ h
    subst hctx
    subst hs₁
    refine ⟨_, _, _, rfl, ?_, by simp [hdoc], by simp [hdoc], by simp [hdoc],
      by simp [hdoc], by simp [hdoc], by simp [hdoc], by simp [hdoc]⟩
    refine List.mem_filter.mpr ⟨?_, ?_⟩
    · exact List.mem_append_right _ (List.mem_singleton.mpr rfl)
    · simp [hdoc]
  · intro pg s₁ h
    obtain ⟨hv, u, hctx, ⟨d, hd⟩, hpg, hs₁⟩ := createPage_ok ctx inpp now newId s pg s₁ h
    subst hctx
    subst hs₁
    have hlen : 1 ≤ inpp.documentId.length := by
      simp only [createPageValid, Bool.and_eq_true, decide_eq_true_eq] at hv
      exact hv.1
    have hd₁ : getOwnedDocument { s with pages := s.pages ++ [pg] }
        inpp.documentId u.id = .ok d := hd
    refine ⟨_, _, _, listPages_run u inpp.documentId _ hlen d hd₁, ?_,
      by simp [hpg], by simp [hpg], by simp [hpg], by simp [hpg]⟩
    refine List.mem_filter.mpr ⟨?_, ?_⟩
    · exact List.mem_append_right _ (List.mem_singleton.mpr rfl)
    · simp [hpg]
  · intro a1 s₁ h
    obtain ⟨hv, u, hctx, ⟨d, hd⟩, ha1, hs₁⟩ :=
      createAnnotation_ok ctx inpa now newId s a1 s₁ h
    subst hctx
    subst hs₁
    have hlen : 1 ≤ inpa.documentId.length := of_decide_eq_true hv
    have hd₁ : getOwnedDocument { s with annotations := s.annotations ++ [a1] }
        inpa.documentId u.id = .ok d := hd
    refine ⟨_, _, _, listAnnotations_run u inpa.documentId _ hlen d hd₁, ?_,
      by simp [ha1], by simp [ha1], by simp [ha1], by simp [ha1], by simp [ha1],
      by simp [ha1], by simp [ha1], by simp [ha1]⟩
    refine List.mem_filter.mpr ⟨?_, ?_⟩
    · exact List.mem_append_right _ (List.mem_singleton.mpr rfl)
    · simp [ha1]

/-- Document created in the round-trip witness. -/
def docNew : Document :=
  { id := "n1", userId := "alice", title := some "T", createdAt := 5, updatedAt := 5 }

/-- Page created in the round-trip witness. -/
def pageNew : Page := { id := "n1", documentId := "d1", pageNumber := 2, createdAt := 5 }

/-- The annotation row created in the round-trip witness. -/
def annNew : Annotation :=
  { id := "n1", documentId := "d1", userId := "alice", comment := some "c",
    createdAt := 5, updatedAt := 5 }

/-- C7 witness: Alice creates a document, a page under `d1` and an
annotation on `d1` against the sample store; each listing on the resulting
store includes the created row with its supplied fields and timestamps. -/
theorem create_then_list_roundtrip_witness :
    (∃ items total s₂,
        listDocuments (some ⟨"alice"⟩)
            { baseStore with documents := baseStore.documents ++ [docNew] }
          = (.ok (items, total), s₂) ∧
        docNew ∈ items ∧ docNew.title = some "T" ∧ docNew.sourceType = none ∧
        docNew.sourceUrl = none ∧ docNew.pageCount = none ∧
        docNew.lastOpenedAt = none ∧ docNew.createdAt = 5 ∧ docNew.updatedAt = 5) ∧
    (∃ items total s₂,
        listPages (some ⟨"alice"⟩) "d1"
            { baseStore with pages := baseStore.pages ++ [pageNew] }
          = (.ok (items, total), s₂) ∧
        pageNew ∈ items ∧ pageNew.documentId = "d1" ∧ pageNew.pageNumber = 2 ∧
        pageNew.textContent = none ∧ pageNew.createdAt = 5) ∧
    (∃ items total s₂,
        listAnnotations (some ⟨"alice"⟩) "d1"
            { baseStore with annotations := baseStore.annotations ++ [annNew] }
          = (.ok (items, total), s₂) ∧
        annNew ∈ items ∧ annNew.documentId = "d1" ∧ annNew.pageId = none ∧
        annNew.annotationType = none ∧ annNew.selectionJson = none ∧
        annNew.comment = some "c" ∧ annNew.color = none ∧
        annNew.createdAt = 5 ∧ annNew.updatedAt = 5) :=
  ⟨(create_then_list_roundtrip (some ⟨"alice"⟩) baseStore 5 "n1"
      { title := some "T" } { documentId := "d1", pageNumber := 2 }
      { documentId := "d1", comment := some "c" }).1 docNew
      { baseStore with documents := baseStore.documents ++ [docNew] } rfl,
    (create_then_list_roundtrip (some ⟨"alice"⟩) baseStore 5 "n1"
      { title := some "T" } { documentId := "d1", pageNumber := 2 }
      { documentId := "d1", comment := some "c" }).2.1 pageNew
      { baseStore with pages := baseStore.pages ++ [pageNew] } rfl,
    (create_then_list_roundtrip (some ⟨"alice"⟩) baseStore 5 "n1"
      { title := some "T" } { documentId := "d1", pageNumber := 2 }
      { documentId := "d1", comment := some "c" }).2.2 annNew
      { baseStore with annotations := baseStore.annotations ++ [annNew] } rfl⟩

/-! ### C2 -/

/-- A page whose id is the empty string, belonging to Bob's document `d2`. -/
def pageEmptyId : Page := { id := "", documentId := "d2", pageNumber := 1, createdAt := 0 }

/-- Store for the C2 counterexample: Alice owns `d1`, Bob owns `d2`, and the
page with id `""` belongs to `d2`. -/
def cexStore : Store :=
  { documents := [docAlice, docBob], pages := [pageEmptyId], annotations := [] }

/-- C2 counterexample: `createAnnotation` guards the page check with
JavaScript truthiness (`if (input.pageId)`), so a SUPPLIED pageId equal to
the empty string skips the check. Here the supplied pageId `""` names a
page of document `d2`, different from the given documentId `d1` (and no
page with id `""` belongs to `d1`), yet the call does not fail with
`NotFound`: it succeeds and inserts the annotation with pageId `""`,
refuting the claim as stated. -/
theorem createAnnotation_empty_pageId_skips_check_cex :
    (∃ p ∈ cexStore.pages, p.id = "" ∧ p.documentId ≠ "d1") ∧
      (∀ p ∈ cexStore.pages, ¬(p.id = "" ∧ p.documentId = "d1")) ∧
      ( createAnnotation (some ⟨"alice"⟩)
          { documentId := "d1", pageId := some "" } 5 "a9" cexStore).1
        = .ok { id := "a9", documentId := "d1", pageId := some "",
                userId := "alice", createdAt := 5, updatedAt := 5 } :=
  ⟨by decide, by decide, rfl⟩

/-- C2 (amended): for every `createAnnotation` call in which a NON-EMPTY
pageId is supplied, the action additionally requires the page with that id
to belong to the given documentId: once document ownership passes, it fails
with the page `NOT_FOUND` error when no page with that id belongs to
documentId, and whenever the call succeeds such a page exists and only
then is the annotation appended. -/
theorem createAnnotation_nonempty_pageId_requires_owned_page (u : User)
    (inp : CreateAnnotationInput) (now : Nat) (newId : String) (s : Store)
    (p : String) (hv : createAnnotationValid inp = true)
    (hp : inp.pageId = some p) (hne : p ≠ "") :
    ((∀ pg ∈ s.pages, ¬(pg.id = p ∧ pg.documentId = inp.documentId)) →
      ∀ d, getOwnedDocument s inp.documentId u.id = .ok d →
      createAnnotation (some u) inp now newId s
        = (.error (.thrown pageNotFound), s)) ∧
    (∀ a1 s₁, createAnnotation (some u) inp now newId s = (.ok a1, s₁) →
      (∃ pg ∈ s.pages, pg.id = p ∧ pg.documentId = inp.documentId) ∧
        s₁.annotations = s.annotations ++ [a1]) := by
  have htr : pageIdTruthy (some p) = true := by
    simp [pageIdTruthy, hne]
  constructor
  · intro hnopg d hd
    have hpage : getOwnedPage s p inp.documentId u.id
        = .error (.thrown pageNotFound) := by
      unfold getOwnedPage
      rw [hd]
      have hf : s.pages.find? (fun pg => pg.id == p && pg.documentId == inp.documentId)
          = none := by
        simp only [List.find?_eq_none, Bool.and_eq_true, beq_iff_eq, not_and]
        intro pg hmem h1 h2
        exact hnopg pg hmem ⟨h1, h2⟩
      rw [hf]
    simp [ createAnnotation, hv, requireUser, hd, htr, hp, hpage, Except.map]
  · intro a1 s₁ h
    unfold createAnnotation at h
    rw [if_pos hv] at h
    simp only [requireUser] at h
    cases hd : getOwnedDocument s inp.documentId u.id with
    | error e =>
      rw [hd] at h
      exact (error_pair_ne_ok h).elim
    | ok d =>
      rw [hd] at h
      rw [hp] at h
      rw [if_pos htr] at h
      simp only [Option.getD_some] at h
      cases hgp : getOwnedPage s p inp.documentId u.id with
      | error e =>
        rw [hgp] at h
        exact (error_pair_ne_ok h).elim
      | ok page =>
        rw [hgp] at h
        obtain ⟨-, hmem, hid, hdocid⟩ :=
          getOwnedPage_ok s p inp.documentId u.id page hgp
        simp only [Except.map, Prod.mk.injEq, Except.ok.injEq] at h
        obtain ⟨h1, h2⟩ := h
        refine ⟨⟨page, hmem, hid, hdocid⟩, ?_⟩
        rw [← h2]
        dsimp only
        rw [h1]

/-- C2 witness: Alice supplies the non-empty pageId `p2`, which names a
page of Bob's document `d2`; with documentId `d1` (owned, but not the
page's document) the call fails with the page `NOT_FOUND` error. -/
theorem createAnnotation_nonempty_pageId_requires_owned_page_witness :
    createAnnotation (some ⟨"alice"⟩)
        { documentId := "d1", pageId := some "p2" } 5 "a9" baseStore
      = (.error (.thrown pageNotFound), baseStore) :=
  (createAnnotation_nonempty_pageId_requires_owned_page ⟨"alice"⟩
      { documentId := "d1", pageId := some "p2" } 5 "a9" baseStore "p2"
      rfl rfl (by decide)).1 (by decide) docAlice rfl
